import Mathlib

/-!
Verification of the Adobe-hackathon Round-1B document-intelligence system.

This file gives a shallow embedding, in Lean 4, of the parts of the Python
source that the frozen claims are about:

* `src/round1b/relevance_ranker.py`  — `RelevanceRanker`
* `src/round1b/ml_relevance_ranker.py` — `MLRelevanceRanker.rank_sections`
* `src/round1b/persona_processor.py` — role / domain extraction
* `src/shared/text_utils.py`         — `detect_headings_from_text`
* `src/shared/text_processor.py`     — rule-based heading classification,
  complexity score, question detection
* `src/round1a/outline_extractor.py` — `extract_outline`,
  `_build_outline_structure`
* `src/round1a/ml_outline_extractor.py` — `_determine_heading_level_ml`

Python floats are modelled as exact rationals (`ℚ`); Python dictionaries
with optional keys are modelled as structures with `Option` fields, and each
`dict.get(k, default)` in the source becomes `Option.getD`.  Python's
stable `list.sort` is modelled with Mathlib's stable `List.insertionSort`.
File-system access is modelled by passing the outcome of the extraction
call as an `Except` value.
-/

namespace Round1B

/-! ## Python string primitives -/

/-- `needle.isPrefixOf`-based substring search on character lists; models the
Python `needle in hay` test on strings (empty needle is contained in
everything, as in Python). -/
def hasSubList (hay needle : List Char) : Bool :=
  match hay with
  | [] => needle.isEmpty
  | _ :: t => needle.isPrefixOf hay || hasSubList t needle

/-- Python `needle in hay` for strings. -/
def strContains (hay needle : String) : Bool :=
  hasSubList hay.toList needle.toList

/-- Python `str.lower()` (ASCII, which covers all strings in the source's
vocabularies). -/
def strToLower (s : String) : String :=
  String.mk (s.toList.map Char.toLower)

/-- Python `str.strip()`: drop whitespace from both ends. -/
def pyStrip (s : String) : String :=
  String.mk (((s.toList.dropWhile Char.isWhitespace).reverse.dropWhile Char.isWhitespace).reverse)

/-- `len` of a Python string. -/
def strLen (s : String) : ℕ := s.toList.length

/-- Does the string end with the given character (`str.endswith` for a
one-character suffix)? -/
def strEndsWithChar (s : String) (c : Char) : Bool :=
  match s.toList.getLast? with
  | some c2 => c2 = c
  | none => false

/-- Split a character list at every separator character (the semantics of
Python `str.split(sep)` applied per character, producing empty tokens
between adjacent separators). -/
def splitEachGo (p : Char → Bool) : List Char → List Char → List String
  | [], acc => [String.mk acc.reverse]
  | c :: cs, acc =>
    if p c then String.mk acc.reverse :: splitEachGo p cs []
    else splitEachGo p cs (c :: acc)

/-- Python `str.split()` with no argument: split on whitespace runs and drop
empty tokens. -/
def pySplitWs (s : String) : List String :=
  (splitEachGo Char.isWhitespace s.toList []).filter (fun t => t ≠ "")

/-- A word character for the regex class `\w`: alphanumeric or underscore. -/
def isWordChar (c : Char) : Bool := c.isAlphanum || c = '_'

/-- The tokens matched by `re.findall(r'\b\w+\b', s)`: maximal runs of word
characters. -/
def wordRuns (s : String) : List String :=
  (splitEachGo (fun c => !(isWordChar c)) s.toList []).filter (fun t => t ≠ "")

/-- Helper for `re.split` on a character class with `+`: splits a character
list on *runs* of separator characters.  Boundary runs produce empty
boundary tokens, exactly as `re.split(r'[.!?]+', s)` does; interior runs
collapse.  `inSep` records whether the previous character was a
separator. -/
def runSplitAux (p : Char → Bool) : List Char → Bool → List Char → List String
  | [], inSep, acc => if inSep then [""] else [String.mk acc.reverse]
  | c :: cs, inSep, acc =>
    if p c then
      if inSep then runSplitAux p cs true []
      else String.mk acc.reverse :: runSplitAux p cs true []
    else runSplitAux p cs false (c :: acc)

/-- Sentence terminator characters of `text_processor.py` line 383. -/
def isSentenceSep (c : Char) : Bool := c = '.' || c = '!' || c = '?'

/-- `re.split(r'[.!?]+', text)` from `get_text_complexity_score`. -/
def sentenceSplit (text : String) : List String :=
  runSplitAux isSentenceSep text.toList false []

/-- Does a word contain a digit (`any(char.isdigit() for char in word)`)? -/
def hasDigit (w : String) : Bool := w.toList.any Char.isDigit

/-- String equality as a boolean on the underlying characters. -/
def strEqB (a b : String) : Bool := a.toList == b.toList

/-- Accumulate the distinct members of a list (first occurrences, in
reverse); models the members of a Python `set`. -/
def dedupGo : List String → List String → List String
  | [], acc => acc
  | s :: ss, acc =>
    if acc.any (fun t => strEqB t s) then dedupGo ss acc else dedupGo ss (s :: acc)

/-- `len(set(l))` for a list of Python strings. -/
def pySetSize (l : List String) : ℕ := (dedupGo l []).length

/-! ## Data model: sections and persona profiles

A Python section dictionary; every key the ranker reads may be absent, so
each field is an `Option`, and the ranker applies the source's
`dict.get(key, default)` defaults at each use site. -/

structure PySection where
  title : Option String
  content : Option String
  level : Option Int
  page : Option Int
  word_count : Option Int
  document : Option String
  deriving Repr, DecidableEq

/-- The persona-profile dictionary fields read by the rankers. -/
structure PersonaProfile where
  role : Option String
  domain : Option String
  job_type : Option String
  keywords : Option (List String)
  job_keywords : Option (List String)
  success_criteria : Option (List String)
  deriving Repr, DecidableEq

/-! ## `text_processor.py`: complexity and question helpers -/

/-- `TextProcessor.get_text_complexity_score` (text_processor.py 377-398). -/
def getTextComplexityScore (text : String) : ℚ :=
  if text = "" then 0
  else
    let sentences := sentenceSplit text
    let words := wordRuns text
    if sentences = [] ∨ words = [] then 0
    else
      let avg_sentence_length : ℚ := (words.length : ℚ) / (sentences.length : ℚ)
      let complex_words := words.filter (fun w => 6 < strLen w)
      let complex_word_ratio : ℚ :=
        if words ≠ [] then (complex_words.length : ℚ) / (words.length : ℚ) else 0
      let complexity := avg_sentence_length * (4/10) + complex_word_ratio * 100 * (6/10)
      min (complexity / 20) 1

/-- Question words of `TextProcessor.is_question`. -/
def questionWords : List String := ["what", "how", "why", "when", "where", "who", "which"]

/-- `TextProcessor.is_question` (text_processor.py 350-361). -/
def isQuestion (text : String) : Bool :=
  let t := pyStrip text
  if strEndsWithChar t '?' then true
  else
    match pySplitWs (strToLower t) with
    | [] => false
    | w :: _ => questionWords.contains w

/-! ## `relevance_ranker.py`: the rule-based relevance ranker -/

/-- `RelevanceRanker._get_role_keywords` (relevance_ranker.py 183-195). -/
def getRoleKeywords (role : String) : List String :=
  if role = "researcher" then ["research", "study", "analysis", "methodology", "findings", "literature", "hypothesis", "experiment"]
  else if role = "student" then ["learn", "understand", "concept", "theory", "practice", "exercise", "example", "explanation"]
  else if role = "analyst" then ["analyze", "data", "trend", "metric", "performance", "benchmark", "comparison", "insight"]
  else if role = "journalist" then ["report", "news", "story", "source", "interview", "investigation", "fact", "evidence"]
  else if role = "entrepreneur" then ["business", "opportunity", "market", "strategy", "growth", "innovation", "venture", "competitive"]
  else if role = "developer" then ["code", "implementation", "system", "architecture", "framework", "library", "api", "technical"]
  else if role = "manager" then ["team", "project", "planning", "execution", "strategy", "leadership", "operations", "coordination"]
  else []

/-- `RelevanceRanker._get_domain_keywords` (relevance_ranker.py 197-210). -/
def getDomainKeywords (domain : String) : List String :=
  if domain = "technology" then ["software", "hardware", "digital", "computer", "internet", "ai", "machine learning", "data"]
  else if domain = "biology" then ["cell", "organism", "gene", "protein", "evolution", "ecosystem", "species", "molecular"]
  else if domain = "chemistry" then ["molecule", "reaction", "compound", "element", "bond", "synthesis", "catalyst", "organic"]
  else if domain = "finance" then ["investment", "revenue", "profit", "market", "financial", "economic", "capital", "asset"]
  else if domain = "business" then ["management", "strategy", "marketing", "sales", "customer", "product", "service", "operation"]
  else if domain = "education" then ["teaching", "learning", "curriculum", "assessment", "pedagogy", "instruction", "academic", "school"]
  else if domain = "engineering" then ["design", "system", "process", "optimization", "manufacturing", "construction", "technical", "specification"]
  else if domain = "law" then ["legal", "regulation", "compliance", "contract", "liability", "court", "statute", "precedent"]
  else []

/-- `RelevanceRanker._get_job_type_keywords` (relevance_ranker.py 212-223). -/
def getJobTypeKeywords (job_type : String) : List String :=
  if job_type = "review" then ["review", "evaluate", "assess", "critique", "examination", "analysis", "overview", "summary"]
  else if job_type = "summarize" then ["summary", "overview", "brief", "abstract", "condensed", "key points", "main ideas", "synopsis"]
  else if job_type = "compare" then ["compare", "contrast", "difference", "similarity", "versus", "benchmark", "relative", "comparison"]
  else if job_type = "identify" then ["identify", "find", "locate", "discover", "detect", "recognize", "determine", "specify"]
  else if job_type = "prepare" then ["prepare", "create", "develop", "build", "design", "construct", "formulate", "establish"]
  else if job_type = "learn" then ["learn", "understand", "study", "master", "comprehend", "grasp", "acquire", "absorb"]
  else []

/-- `sum(1 for keyword in kws if keyword.lower() in full_text.lower())`. -/
def countKeywordMatches (kws : List String) (full_text : String) : ℕ :=
  kws.countP (fun k => strContains (strToLower full_text) (strToLower k))

/-- `RelevanceRanker._calculate_semantic_score` (relevance_ranker.py 61-88). -/
def calculateSemanticScore (content title : String) (p : PersonaProfile) : ℚ :=
  let full_text := title ++ " " ++ content
  let role_keywords := getRoleKeywords (p.role.getD "")
  let role_matches := countKeywordMatches role_keywords full_text
  let s1 := min ((role_matches : ℚ) / ((max role_keywords.length 1 : ℕ) : ℚ) * (4/10)) (4/10)
  let domain_keywords := getDomainKeywords (p.domain.getD "")
  let domain_matches := countKeywordMatches domain_keywords full_text
  let s2 := min ((domain_matches : ℚ) / ((max domain_keywords.length 1 : ℕ) : ℚ) * (3/10)) (3/10)
  let job_keywords := getJobTypeKeywords (p.job_type.getD "")
  let job_matches := countKeywordMatches job_keywords full_text
  let s3 := min ((job_matches : ℚ) / ((max job_keywords.length 1 : ℕ) : ℚ) * (3/10)) (3/10)
  s1 + s2 + s3

/-- `RelevanceRanker._calculate_keyword_score` (relevance_ranker.py 90-115).
The text is lower-cased once; every division is guarded by non-emptiness of
the keyword list, as in the source. -/
def calculateKeywordScore (content title : String) (p : PersonaProfile) : ℚ :=
  let full_text := strToLower (title ++ " " ++ content)
  let persona_keywords := p.keywords.getD []
  let persona_matches := persona_keywords.countP (fun k => strContains full_text (strToLower k))
  let s1 : ℚ := if persona_keywords ≠ [] then
      min ((persona_matches : ℚ) / (persona_keywords.length : ℚ) * (5/10)) (5/10) else 0
  let job_keywords := p.job_keywords.getD []
  let job_matches := job_keywords.countP (fun k => strContains full_text (strToLower k))
  let s2 : ℚ := if job_keywords ≠ [] then
      min ((job_matches : ℚ) / (job_keywords.length : ℚ) * (5/10)) (5/10) else 0
  let success_criteria := p.success_criteria.getD []
  let criteria_matches := success_criteria.countP
      (fun c => (pySplitWs c).any (fun w => strContains full_text (strToLower w)))
  let s3 : ℚ := if success_criteria ≠ [] then
      min ((criteria_matches : ℚ) / (success_criteria.length : ℚ) * (3/10)) (3/10) else 0
  s1 + s2 + s3

/-- `RelevanceRanker._calculate_structural_score` (relevance_ranker.py 117-144). -/
def calculateStructuralScore (s : PySection) : ℚ :=
  let level := s.level.getD 3
  let s1 : ℚ := if level = 1 then 4/10 else if level = 2 then 3/10 else if level = 3 then 2/10 else 0
  let page := s.page.getD 1
  let page_score : ℚ := max 0 (1 - ((page : ℚ) - 1) / 10)
  let s2 := page_score * (3/10)
  let word_count := s.word_count.getD 0
  let s3 : ℚ := if 50 ≤ word_count ∧ word_count ≤ 500 then 3/10
    else if 500 < word_count ∧ word_count ≤ 1000 then 2/10
    else if 1000 < word_count then 1/10 else 0
  s1 + s2 + s3

/-- Readability indicator substrings of `_calculate_quality_score`. -/
def readabilityIndicators : List String :=
  ["figure", "table", "example", "case study", "result", "finding"]

/-- `RelevanceRanker._calculate_quality_score` (relevance_ranker.py 146-181). -/
def calculateQualityScore (content : String) : ℚ :=
  if content = "" then 0
  else
    let word_count := (pySplitWs content).length
    let unique_words := pySetSize (pySplitWs (strToLower content))
    let s1 : ℚ := if 0 < word_count then
        min (((unique_words : ℚ) / (word_count : ℚ)) * 2) (3/10) else 0
    let numbers := (pySplitWs content).countP hasDigit
    let s2 : ℚ := if 0 < numbers then
        min (((numbers : ℚ) / (word_count : ℚ)) * 10) (2/10) else 0
    let s3 := getTextComplexityScore content * (2/10)
    let s4 : ℚ := if readabilityIndicators.any (fun i => strContains (strToLower content) i) then 2/10 else 0
    let s5 : ℚ := if isQuestion content then 1/10 else 0
    min (s1 + s2 + s3 + s4 + s5) 1

/-- The four weights of `shared/config.py` 30-33. -/
def SEMANTIC_WEIGHT : ℚ := 4/10

def KEYWORD_WEIGHT : ℚ := 25/100

def STRUCTURAL_WEIGHT : ℚ := 2/10

def QUALITY_WEIGHT : ℚ := 15/100

/-- `RelevanceRanker._calculate_relevance_score` (relevance_ranker.py 37-59). -/
def calculateRelevanceScore (s : PySection) (p : PersonaProfile) : ℚ :=
  let content := s.content.getD ""
  let title := s.title.getD ""
  if content = "" then 0
  else
    min (calculateSemanticScore content title p * SEMANTIC_WEIGHT
      + calculateKeywordScore content title p * KEYWORD_WEIGHT
      + calculateStructuralScore s * STRUCTURAL_WEIGHT
      + calculateQualityScore content * QUALITY_WEIGHT) 1

/-- A section dictionary after `section.copy()` plus the added
`"relevance_score"` key (relevance_ranker.py 28-29). -/
structure ScoredSection where
  sect : PySection
  relevance_score : ℚ
  deriving Repr, DecidableEq

/-- Descending comparison on scores used by
`scored_sections.sort(key=..., reverse=True)`; placing `a` before `b`
exactly when `b`'s score does not exceed `a`'s reproduces Python's stable
descending sort under `List.insertionSort`. -/
def scoreGE (a b : ScoredSection) : Prop := b.relevance_score ≤ a.relevance_score

instance : DecidableRel scoreGE :=
  fun a b => inferInstanceAs (Decidable (b.relevance_score ≤ a.relevance_score))

instance : IsTotal ScoredSection scoreGE :=
  ⟨fun a b => le_total b.relevance_score a.relevance_score⟩

instance : IsTrans ScoredSection scoreGE :=
  ⟨fun _ _ _ hab hbc => le_trans hbc hab⟩

/-- `RelevanceRanker.rank_sections` (relevance_ranker.py 19-35). -/
def rankSections (sections : List PySection) (p : PersonaProfile) : List ScoredSection :=
  if sections = [] then []
  else
    let scored := sections.map (fun s => ⟨s, calculateRelevanceScore s p⟩)
    List.insertionSort scoreGE scored

/-! ## Division-safety of the relevance score

Every division performed by `_calculate_relevance_score` and its helpers,
together with the condition under which the source executes it;
`relevanceScoreDivisorsPos` states that each such denominator is non-zero
whenever its division is reached. -/

/-- Positivity of every denominator that `_calculate_relevance_score`
divides by, at the guard under which the source reaches that division:

* relevance_ranker.py 76/81/86 — `max(len(kws), 1)` (unguarded);
* relevance_ranker.py 100/106/113 — `len(kws)` guarded by `if kws:`;
* relevance_ranker.py 132 — the literal `10`;
* relevance_ranker.py 157 — `word_count` guarded by `if word_count > 0:`;
* relevance_ranker.py 163 — `word_count` guarded by `if numbers > 0:`;
* text_processor.py 389/393 — `len(sentences)`, `len(words)` guarded by
  `if not sentences or not words: return 0`;
* text_processor.py 398 — the literal `20`. -/
def relevanceScoreDivisorsPos (s : PySection) (p : PersonaProfile) : Prop :=
  let content := s.content.getD ""
  0 < max (getRoleKeywords (p.role.getD "")).length 1
  ∧ 0 < max (getDomainKeywords (p.domain.getD "")).length 1
  ∧ 0 < max (getJobTypeKeywords (p.job_type.getD "")).length 1
  ∧ (p.keywords.getD [] ≠ [] → 0 < (p.keywords.getD []).length)
  ∧ (p.job_keywords.getD [] ≠ [] → 0 < (p.job_keywords.getD []).length)
  ∧ (p.success_criteria.getD [] ≠ [] → 0 < (p.success_criteria.getD []).length)
  ∧ (0:ℚ) < 10
  ∧ (0 < (pySplitWs content).length → 0 < (pySplitWs content).length)
  ∧ (0 < (pySplitWs content).countP hasDigit → 0 < (pySplitWs content).length)
  ∧ (sentenceSplit content ≠ [] → 0 < (sentenceSplit content).length)
  ∧ (wordRuns content ≠ [] → 0 < (wordRuns content).length)
  ∧ (0:ℚ) < 20

lemma ite_nonneg {c : Prop} [Decidable c] {a b : ℚ} (ha : 0 ≤ a) (hb : 0 ≤ b) :
    0 ≤ if c then a else b := by split <;> assumption

lemma min_nonneg' {a b : ℚ} (ha : 0 ≤ a) (hb : 0 ≤ b) : 0 ≤ min a b := le_min ha hb

lemma getTextComplexityScore_nonneg (text : String) : 0 ≤ getTextComplexityScore text := by
  unfold getTextComplexityScore
  dsimp only
  split
  · exact le_rfl
  · split
    · exact le_rfl
    · refine le_min ?_ (by norm_num)
      refine div_nonneg (add_nonneg (mul_nonneg (by positivity) (by norm_num)) ?_) (by norm_num)
      refine mul_nonneg (mul_nonneg ?_ (by norm_num)) (by norm_num)
      exact ite_nonneg (by positivity) le_rfl

lemma calculateSemanticScore_nonneg (content title : String) (p : PersonaProfile) :
    0 ≤ calculateSemanticScore content title p := by
  unfold calculateSemanticScore
  dsimp only
  refine add_nonneg (add_nonneg ?_ ?_) ?_ <;>
    exact min_nonneg' (by positivity) (by norm_num)

lemma calculateKeywordScore_nonneg (content title : String) (p : PersonaProfile) :
    0 ≤ calculateKeywordScore content title p := by
  unfold calculateKeywordScore
  dsimp only
  refine add_nonneg (add_nonneg ?_ ?_) ?_ <;>
    exact ite_nonneg (min_nonneg' (by positivity) (by norm_num)) le_rfl

lemma calculateStructuralScore_nonneg (s : PySection) :
    0 ≤ calculateStructuralScore s := by
  unfold calculateStructuralScore
  dsimp only
  refine add_nonneg (add_nonneg ?_ ?_) ?_
  · repeat' split
    all_goals norm_num
  · exact mul_nonneg (le_max_left 0 _) (by norm_num)
  · repeat' split
    all_goals norm_num

lemma calculateQualityScore_nonneg (content : String) :
    0 ≤ calculateQualityScore content := by
  unfold calculateQualityScore
  dsimp only
  split
  · exact le_rfl
  · refine le_min ?_ (by norm_num)
    refine add_nonneg (add_nonneg (add_nonneg (add_nonneg ?_ ?_) ?_) ?_) ?_
    · exact ite_nonneg (min_nonneg' (by positivity) (by norm_num)) le_rfl
    · exact ite_nonneg (min_nonneg' (by positivity) (by norm_num)) le_rfl
    · exact mul_nonneg (getTextComplexityScore_nonneg _) (by norm_num)
    · exact ite_nonneg (by norm_num) le_rfl
    · exact ite_nonneg (by norm_num) le_rfl

lemma calculateRelevanceScore_nonneg (s : PySection) (p : PersonaProfile) :
    0 ≤ calculateRelevanceScore s p := by
  unfold calculateRelevanceScore
  dsimp only
  split
  · exact le_rfl
  · refine le_min ?_ (by norm_num)
    refine add_nonneg (add_nonneg (add_nonneg ?_ ?_) ?_) ?_
    · exact mul_nonneg (calculateSemanticScore_nonneg _ _ _) (by norm_num [SEMANTIC_WEIGHT])
    · exact mul_nonneg (calculateKeywordScore_nonneg _ _ _) (by norm_num [KEYWORD_WEIGHT])
    · exact mul_nonneg (calculateStructuralScore_nonneg _) (by norm_num [STRUCTURAL_WEIGHT])
    · exact mul_nonneg (calculateQualityScore_nonneg _) (by norm_num [QUALITY_WEIGHT])

lemma calculateRelevanceScore_le_one (s : PySection) (p : PersonaProfile) :
    calculateRelevanceScore s p ≤ 1 := by
  unfold calculateRelevanceScore
  dsimp only
  split
  · norm_num
  · exact min_le_right _ _

/-- C1: for every section dictionary and every persona profile (including
profiles whose keyword, job-keyword and success-criteria lists are empty or
absent), the relevance score computed by
`RelevanceRanker._calculate_relevance_score` lies in [0, 1], and every
denominator the computation divides by is positive at the point where the
source performs the division (no divide-by-zero). -/
theorem relevance_score_unit_interval_no_div_zero (s : PySection) (p : PersonaProfile) :
    0 ≤ calculateRelevanceScore s p ∧ calculateRelevanceScore s p ≤ 1 ∧
      relevanceScoreDivisorsPos s p := by
  refine ⟨calculateRelevanceScore_nonneg s p, calculateRelevanceScore_le_one s p, ?_⟩
  unfold relevanceScoreDivisorsPos
  refine ⟨?_, ?_, ?_, ?_, ?_, ?_, by norm_num, fun h => h, ?_, ?_, ?_, by norm_num⟩
  · exact lt_of_lt_of_le one_pos (le_max_right _ _)
  · exact lt_of_lt_of_le one_pos (le_max_right _ _)
  · exact lt_of_lt_of_le one_pos (le_max_right _ _)
  · intro h; exact List.length_pos.mpr h
  · intro h; exact List.length_pos.mpr h
  · intro h; exact List.length_pos.mpr h
  · intro h; exact lt_of_lt_of_le h (List.countP_le_length _)
  · intro h; exact List.length_pos.mpr h
  · intro h; exact List.length_pos.mpr h

/-- C9: `RelevanceRanker.rank_sections` returns a list of the same length as
its input that is, up to reordering, exactly the input sections each copied
and extended with their `"relevance_score"`; all other fields of every
section are unchanged (the output is a permutation of
`sections.map (fun s => ⟨s, score s⟩)`).  The embedding is pure, so the
input list and its section dictionaries are not mutated. -/
theorem rank_sections_copies_input (sections : List PySection) (p : PersonaProfile) :
    (rankSections sections p).length = sections.length ∧
      List.Perm (rankSections sections p)
        (sections.map (fun s => ⟨s, calculateRelevanceScore s p⟩)) := by
  have hperm : List.Perm (rankSections sections p)
      (sections.map (fun s => ⟨s, calculateRelevanceScore s p⟩)) := by
    unfold rankSections
    split
    · subst ‹sections = []›; simp
    · exact List.perm_insertionSort _ _
  exact ⟨by simpa using hperm.length_eq, hperm⟩

/-- C10: a section whose `"content"` entry is absent or the empty string
receives relevance score exactly 0, whatever its other fields and whatever
the persona profile (relevance_ranker.py 39-43). -/
theorem empty_content_scores_zero (s : PySection) (p : PersonaProfile)
    (h : s.content = none ∨ s.content = some "") :
    calculateRelevanceScore s p = 0 := by
  rcases h with h | h <;> simp [calculateRelevanceScore, h]

/-- Witness for C10 at a concrete content-free section. -/
theorem empty_content_scores_zero_witness :
    calculateRelevanceScore ⟨some "T", none, some 1, some 1, some 10, some "d.pdf"⟩
      ⟨some "researcher", some "biology", some "review", some ["cell"], some ["gene"], some ["find x"]⟩ = 0 :=
  empty_content_scores_zero _ _ (Or.inl rfl)

/-! ## `ml_relevance_ranker.py`: the ML ranker's diversity re-rank

Only `MLRelevanceRanker.rank_sections` applies a cross-document diversity
penalty; the scoring function `_calculate_ml_relevance_score` depends on the
external sentence-embedding model, so the ranking pass is embedded
parametrically in the per-section score function, which is all the
diversity logic reads. -/

/-- The ML ranker's output entries: a section copy with `relevance_score`
and, after sorting, `importance_rank` (ml_relevance_ranker.py 29-31, 51-52). -/
structure MLScoredSection where
  sect : PySection
  relevance_score : ℚ
  importance_rank : ℕ
  deriving Repr, DecidableEq

/-- The `document_counts` dictionary of ml_relevance_ranker.py 33-35: the
number of input sections whose `"document"` is `d`. -/
def mlDocCount (sections : List PySection) (d : String) : ℕ :=
  sections.countP (fun s => s.document.getD "" == d)

/-- The diversity penalty of ml_relevance_ranker.py 42-45: documents with
more than 3 sections get each of their scores multiplied by
`1 - min(0.1 * (count - 3), 0.5)`; others are left untouched. -/
def mlPenalize (sections : List PySection) (s : PySection) (score : ℚ) : ℚ :=
  let doc_count := mlDocCount sections (s.document.getD "")
  if 3 < doc_count then score * (1 - min ((1/10) * ((doc_count : ℚ) - 3)) (1/2))
  else score

/-- `MLRelevanceRanker.rank_sections` (ml_relevance_ranker.py 18-54),
parametric in the per-section score `scoreFn` computed by
`_calculate_ml_relevance_score`: score each section into a copy, apply the
diversity penalty, sort by score descending (stable), then assign dense
1-based importance ranks. -/
def mlRankSections (scoreFn : PySection → ℚ) (sections : List PySection) :
    List MLScoredSection :=
  if sections = [] then []
  else
    let scored : List ScoredSection := sections.map (fun s => ⟨s, scoreFn s⟩)
    let penalized : List ScoredSection :=
      scored.map (fun t => ⟨t.sect, mlPenalize sections t.sect t.relevance_score⟩)
    let sorted := List.insertionSort scoreGE penalized
    sorted.enum.map (fun ie => ⟨ie.2.sect, ie.2.relevance_score, ie.1 + 1⟩)

lemma enum_map_map {α β γ : Type} (l : List α) (f : ℕ × α → β) (g : β → γ)
    (k : α → γ) (h : ∀ i a, g (f (i, a)) = k a) :
    (l.enum.map f).map g = l.map k := by
  rw [List.map_map]
  induction l using List.reverseRecOn with
  | nil => rfl
  | append_singleton xs x ih => simp [List.enum_append, ih, h, Function.comp]

/-- A concrete section: title "Results", content "Results of the study",
level 1, page 1, word count 4, document "doc1.pdf". -/
def sampleSection : PySection :=
  ⟨some "Results", some "Results of the study", some 1, some 1, some 4, some "doc1.pdf"⟩

/-- A persona-profile dictionary with no keys. -/
def emptyProfile : PersonaProfile := ⟨none, none, none, none, none, none⟩

/-- C2 counterexample: the ranking operation used by the Round-1B pipeline
(`DocumentAnalyzer.analyze_documents` calls `RelevanceRanker.rank_sections`)
applies **no** diversity penalty.  On four copies of one section from a
single document — which contributes 4 > 3 sections — the returned scores
are the raw relevance scores (2399/10000 each), not the 10%-penalized
values the claim requires. -/
theorem diversity_penalty_not_applied_counterexample :
    ([sampleSection, sampleSection, sampleSection, sampleSection].countP
        (fun s => s.document.getD "" == "doc1.pdf") = 4) ∧
      (rankSections [sampleSection, sampleSection, sampleSection, sampleSection]
          emptyProfile).map (fun t => t.relevance_score)
        = [2399/10000, 2399/10000, 2399/10000, 2399/10000] ∧
      (2399/10000 : ℚ) ≠ 2399/10000 * (1 - min ((1/10) * ((4:ℚ) - 3)) (1/2)) := by
  refine ⟨by simp [sampleSection], ?_, ?_⟩
  · have hsc : calculateRelevanceScore sampleSection emptyProfile = 2399/10000 := by
      simp [calculateRelevanceScore, calculateSemanticScore, calculateKeywordScore,
        calculateStructuralScore, calculateQualityScore, getTextComplexityScore,
        countKeywordMatches, getRoleKeywords, getDomainKeywords, getJobTypeKeywords,
        sampleSection, emptyProfile, pySplitWs, splitEachGo, strToLower, strContains,
        hasSubList, wordRuns, sentenceSplit, runSplitAux, isWordChar, isSentenceSep,
        strLen, isQuestion, pyStrip, strEndsWithChar, readabilityIndicators,
        questionWords, hasDigit, strEqB, dedupGo, pySetSize, SEMANTIC_WEIGHT,
        KEYWORD_WEIGHT, STRUCTURAL_WEIGHT, QUALITY_WEIGHT]
      simp [List.filter, String.length]
      norm_num
    simp [rankSections, hsc, List.insertionSort, List.orderedInsert, scoreGE]
  · have hmin : min ((1/10) * ((4:ℚ) - 3)) (1/2) = 1/10 := by norm_num [min_def]
    rw [hmin]; norm_num

/-- C2 (amended): the *ML* ranker, `MLRelevanceRanker.rank_sections`, is the
ranking operation that applies the diversity penalty.  For every score
function and every input list, its output is, up to the descending re-sort,
exactly the input sections scored and then penalized: a section of a
document contributing `count > 3` sections carries score
`score * (1 - min(0.1*(count-3), 0.5))`, and a section of a document
contributing at most 3 sections keeps its score unchanged; the output is
sorted by the penalized scores in descending order.  The basic
`RelevanceRanker.rank_sections` used by `DocumentAnalyzer` applies no such
penalty. -/
theorem ml_rank_sections_applies_diversity_penalty (scoreFn : PySection → ℚ)
    (sections : List PySection) :
    List.Perm ((mlRankSections scoreFn sections).map (fun t => (t.sect, t.relevance_score)))
        (sections.map (fun s =>
          (s, if 3 < mlDocCount sections (s.document.getD "") then
                scoreFn s *
                  (1 - min ((1/10) * ((mlDocCount sections (s.document.getD "") : ℚ) - 3)) (1/2))
              else scoreFn s))) ∧
      List.Sorted (fun a b => b ≤ a)
        ((mlRankSections scoreFn sections).map (fun t => t.relevance_score)) := by
  constructor
  · unfold mlRankSections
    split
    · subst ‹sections = []›; simp
    · dsimp only
      rw [enum_map_map _ _ _ (fun t : ScoredSection => (t.sect, t.relevance_score))
        (fun _ _ => rfl)]
      refine List.Perm.trans (List.Perm.map _ (List.perm_insertionSort _ _)) ?_
      rw [List.map_map, List.map_map]
      refine List.Perm.of_eq (List.map_congr_left fun s _ => ?_)
      simp [Function.comp, mlPenalize]
  · unfold mlRankSections
    split
    · simp
    · dsimp only
      rw [enum_map_map _ _ _ (fun t : ScoredSection => t.relevance_score) (fun _ _ => rfl)]
      have hs := List.sorted_insertionSort scoreGE
        ((sections.map (fun s => (⟨s, scoreFn s⟩ : ScoredSection))).map
          (fun t => ⟨t.sect, mlPenalize sections t.sect t.relevance_score⟩))
      exact List.pairwise_map.mpr hs

/-! ## `text_utils.py`: text blocks and rule-based heading detection -/

/-- `TextBlock` of text_utils.py 10-19. -/
structure TextBlock where
  text : String
  page_num : Int
  bbox : ℚ × ℚ × ℚ × ℚ
  font_size : ℚ
  font_name : String
  font_flags : Int
  line_height : ℚ
  deriving Repr, DecidableEq

/-- A heading dictionary as produced by `detect_headings_from_text`
(text_utils.py 94-101). -/
structure Heading where
  text : String
  level : Int
  page_num : Int
  bbox : ℚ × ℚ × ℚ × ℚ
  font_size : ℚ
  confidence : ℚ
  deriving Repr, DecidableEq

/-- Tail state of the matcher for `^\d+(\.\d+)*\.?\s+\w+` once the first
whitespace has been consumed: skip further whitespace, then require a word
character (`\w`). -/
def matchNumberedWs : List Char → Bool
  | [] => false
  | c :: cs => if c.isWhitespace then matchNumberedWs cs else isWordChar c

/-- State machine for `^\d+(\.\d+)*\.?\s+\w+` after the leading digit:
`afterDot` records that the previous character was a `'.'` (which must be
followed by a digit to continue the `(\.\d+)*` star, or by whitespace when
it was the optional trailing `\.?`). -/
def matchNumberedGo : List Char → Bool → Bool
  | [], _ => false
  | c :: cs, afterDot =>
    if c.isDigit then matchNumberedGo cs false
    else if c = '.' then (if afterDot then false else matchNumberedGo cs true)
    else if c.isWhitespace then matchNumberedWs cs
    else false

/-- `re.match(r'^\d+(\.\d+)*\.?\s+\w+', text)` (text_utils.py 74). -/
def matchNumberedHeading (text : String) : Bool :=
  match text.toList with
  | [] => false
  | c :: cs => c.isDigit && matchNumberedGo cs false

/-- `text.count('.')` (text_utils.py 77): dots anywhere in the text. -/
def countDots (text : String) : ℕ := text.toList.countP (fun c => c = '.')

/-- Python `str.isupper()` (ASCII): at least one letter, and no lowercase
letter. -/
def pyIsUpper (s : String) : Bool :=
  s.toList.any Char.isAlpha && s.toList.all (fun c => !(c.isLower))

/-- The per-block body of the loop of `detect_headings_from_text`
(text_utils.py 62-102): returns the heading dictionary appended for this
block, if any. -/
def detectHeadingOfBlock (block : TextBlock) : Option Heading :=
  let text := pyStrip block.text
  if strLen text < 3 ∨ 200 < strLen text then none
  else if matchNumberedHeading text then
    some ⟨text, min ((countDots text : ℤ) + 1) 4, block.page_num, block.bbox, block.font_size, 7/10⟩
  else if strLen text < 80 ∧ ¬(strEndsWithChar text '.' = true) ∧ ¬(strEndsWithChar text ',' = true) then
    (if (pySplitWs text).length ≤ 8 then
      some ⟨text, 2, block.page_num, block.bbox, block.font_size, 7/10⟩
     else none)
  else if pyIsUpper text ∧ (pySplitWs text).length ≤ 6 then
    some ⟨text, 1, block.page_num, block.bbox, block.font_size, 7/10⟩
  else none

/-- `detect_headings_from_text` (text_utils.py 56-104). -/
def detectHeadingsFromText (blocks : List TextBlock) : List Heading :=
  blocks.filterMap detectHeadingOfBlock

/-! ## `outline_extractor.py`: building the outline structure

`_build_outline_structure` mutates a root list through the aliases
`current_h1` / `current_h2` (the open level-1 root and its open level-2
child).  The embedding renders the aliases as a zipper: `pre` holds the
roots before the open `current_h1`, `post` the roots appended after it, and
the open nodes keep their so-far-accumulated children explicitly. -/

/-- A `section_info` dictionary (outline_extractor.py 77-82), with its
nested `subsections`. -/
inductive SectionNode where
  | mk (section_title : String) (level : Int) (page_number : Int)
      (subsections : List SectionNode)

def SectionNode.section_title : SectionNode → String
  | .mk t _ _ _ => t

def SectionNode.level : SectionNode → Int
  | .mk _ l _ _ => l

def SectionNode.page_number : SectionNode → Int
  | .mk _ _ p _ => p

def SectionNode.subsections : SectionNode → List SectionNode
  | .mk _ _ _ s => s

/-- The node aliased by `current_h2`: its fields plus the subsections
appended to it so far. -/
structure OpenH2 where
  title : String
  level : Int
  page : Int
  subs : List SectionNode

/-- The node aliased by `current_h1`: its fields, the children appended
before (and other than) the currently open `current_h2`, and the open
`current_h2` itself (always its last child when present). -/
structure OpenH1 where
  title : String
  level : Int
  page : Int
  closedSubs : List SectionNode
  h2 : Option OpenH2

/-- The loop state of `_build_outline_structure`: the `outline` list split
around the root aliased by `current_h1` (`post` holds roots appended after
it while it stays open; when `current_h1` is `none`, `post` is empty). -/
structure BuildState where
  pre : List SectionNode
  h1 : Option OpenH1
  post : List SectionNode

def closeH2 (o : OpenH2) : SectionNode := .mk o.title o.level o.page o.subs

def closeH1 (o : OpenH1) : SectionNode :=
  .mk o.title o.level o.page (o.closedSubs ++ (o.h2.map closeH2).toList)

/-- The `outline` list denoted by a build state. -/
def stateRoots (st : BuildState) : List SectionNode :=
  st.pre ++ (st.h1.map closeH1).toList ++ st.post

/-- A fresh `section_info` for a heading (its `subsections` start empty). -/
def leaf (h : Heading) : SectionNode := .mk h.text h.level h.page_num []

/-- `outline.append(section_info)` while `current_h1`/`current_h2` keep
pointing at their nodes. -/
def addRoot (st : BuildState) (n : SectionNode) : BuildState :=
  match st.h1 with
  | some _ => { st with post := st.post ++ [n] }
  | none => { st with pre := st.pre ++ [n] }

/-- One iteration of the loop of `_build_outline_structure`
(outline_extractor.py 75-106). -/
def buildStep (st : BuildState) (h : Heading) : BuildState :=
  if h.level = 1 then
    { pre := stateRoots st, h1 := some ⟨h.text, h.level, h.page_num, [], none⟩, post := [] }
  else if h.level = 2 then
    match st.h1 with
    | some o => { st with h1 := some { o with
        closedSubs := o.closedSubs ++ (o.h2.map closeH2).toList,
        h2 := some ⟨h.text, h.level, h.page_num, []⟩ } }
    | none => addRoot st (leaf h)
  else if h.level = 3 then
    match st.h1 with
    | some o =>
      match o.h2 with
      | some o2 => { st with h1 := some { o with h2 := some { o2 with subs := o2.subs ++ [leaf h] } } }
      | none => addRoot st (leaf h)
    | none => addRoot st (leaf h)
  else if 4 ≤ h.level then
    match st.h1 with
    | some o =>
      match o.h2 with
      | some o2 => { st with h1 := some { o with h2 := some { o2 with subs := o2.subs ++ [leaf h] } } }
      | none => { st with h1 := some { o with closedSubs := o.closedSubs ++ [leaf h] } }
    | none => addRoot st (leaf h)
  else addRoot st (leaf h)

/-- The ascending stable sort key of outline_extractor.py 69:
`(page_num, bbox[1])`. -/
def headingLE (a b : Heading) : Prop :=
  a.page_num < b.page_num ∨ (a.page_num = b.page_num ∧ a.bbox.2.1 ≤ b.bbox.2.1)

instance : DecidableRel headingLE := fun a b =>
  inferInstanceAs (Decidable (_ ∨ _))

instance : IsTotal Heading headingLE := ⟨by
  intro a b
  rcases lt_trichotomy a.page_num b.page_num with h | h | h
  · exact Or.inl (Or.inl h)
  · rcases le_total a.bbox.2.1 b.bbox.2.1 with h2 | h2
    · exact Or.inl (Or.inr ⟨h, h2⟩)
    · exact Or.inr (Or.inr ⟨h.symm, h2⟩)
  · exact Or.inr (Or.inl h)⟩

instance : IsTrans Heading headingLE := ⟨by
  intro a b c hab hbc
  rcases hab with h1 | ⟨h1, h2⟩ <;> rcases hbc with h3 | ⟨h3, h4⟩
  · exact Or.inl (h1.trans h3)
  · exact Or.inl (h3 ▸ h1)
  · exact Or.inl (h1 ▸ h3)
  · exact Or.inr ⟨h1.trans h3, h2.trans h4⟩⟩

/-- `OutlineExtractor._build_outline_structure` (outline_extractor.py
63-108): sort by `(page_num, bbox[1])` (stable), then run the
`current_h1`/`current_h2` loop. -/
def buildOutlineStructure (headings : List Heading) : List SectionNode :=
  if headings = [] then []
  else
    let sorted_headings := List.insertionSort headingLE headings
    stateRoots (sorted_headings.foldl buildStep ⟨[], none, []⟩)

/-! ## Counting outline nodes (claim C5) -/

mutual

/-- Number of nodes in a subtree (the node itself plus all transitive
subsections). -/
def nodeCount : SectionNode → ℕ
  | .mk _ _ _ subs => 1 + listCount subs

/-- Total node count of a forest. -/
def listCount : List SectionNode → ℕ
  | [] => 0
  | n :: ns => nodeCount n + listCount ns

end

lemma nodeCount_mk (t : String) (l p : Int) (subs : List SectionNode) :
    nodeCount (.mk t l p subs) = 1 + listCount subs := by
  simp [nodeCount]

lemma listCount_nil : listCount [] = 0 := by simp [listCount]

lemma listCount_cons (n : SectionNode) (ns : List SectionNode) :
    listCount (n :: ns) = nodeCount n + listCount ns := by
  simp [listCount]

lemma listCount_append (xs ys : List SectionNode) :
    listCount (xs ++ ys) = listCount xs + listCount ys := by
  induction xs with
  | nil => simp [listCount_nil]
  | cons n ns ih => simp [listCount_cons, ih]; omega

/-- Node count of an optional open `current_h2`. -/
def h2Count : Option OpenH2 → ℕ
  | none => 0
  | some o => 1 + listCount o.subs

/-- Node count of an optional open `current_h1`. -/
def h1Count : Option OpenH1 → ℕ
  | none => 0
  | some o => 1 + listCount o.closedSubs + h2Count o.h2

/-- Total node count of a build state. -/
def stateCount (st : BuildState) : ℕ :=
  listCount st.pre + h1Count st.h1 + listCount st.post

lemma nodeCount_closeH2 (o : OpenH2) : nodeCount (closeH2 o) = 1 + listCount o.subs := by
  simp [closeH2, nodeCount_mk]

lemma nodeCount_closeH1 (o : OpenH1) :
    nodeCount (closeH1 o) = 1 + listCount o.closedSubs + h2Count o.h2 := by
  cases ho : o.h2 <;>
    simp [closeH1, nodeCount_mk, listCount_append, h2Count, ho, listCount_nil,
      listCount_cons, nodeCount_closeH2] <;>
    omega

lemma listCount_stateRoots (st : BuildState) : listCount (stateRoots st) = stateCount st := by
  cases hh : st.h1 <;>
    simp [stateRoots, stateCount, listCount_append, hh, h1Count, listCount_nil,
      listCount_cons, nodeCount_closeH1] <;> omega

lemma stateCount_buildStep (st : BuildState) (h : Heading) :
    stateCount (buildStep st h) = stateCount st + 1 := by
  have hroots := listCount_stateRoots st
  rcases st with ⟨pre, oh1, post⟩
  rcases oh1 with _ | ⟨t1, l1, p1, cs, oh2⟩
  · unfold buildStep addRoot
    dsimp only
    repeat' split
    all_goals
      simp_all [stateCount, h1Count, h2Count, listCount_append, listCount_nil,
        listCount_cons, nodeCount_mk, leaf]
    all_goals try omega
  · rcases oh2 with _ | ⟨t2, l2, p2, ss⟩ <;>
    · unfold buildStep addRoot
      dsimp only
      repeat' split
      all_goals
        simp_all [stateCount, h1Count, h2Count, listCount_append, listCount_nil,
          listCount_cons, nodeCount_mk, nodeCount_closeH2, closeH2, leaf]
      all_goals try omega

lemma stateCount_foldl (hs : List Heading) (st : BuildState) :
    stateCount (hs.foldl buildStep st) = stateCount st + hs.length := by
  induction hs generalizing st with
  | nil => simp
  | cons h t ih => simp [List.foldl_cons, ih, stateCount_buildStep]; omega

/-- C5: the outline built by `_build_outline_structure` contains exactly one
node per input heading, counted across all nesting levels — no detected
heading is dropped. -/
theorem outline_node_count_eq_heading_count (headings : List Heading) :
    listCount (buildOutlineStructure headings) = headings.length := by
  unfold buildOutlineStructure
  split
  · subst ‹headings = []›; simp [listCount]
  · dsimp only
    rw [listCount_stateRoots, stateCount_foldl]
    simp [stateCount, h1Count, listCount_nil,
      (List.perm_insertionSort headingLE headings).length_eq]

/-! ## Outline levels (claim C3)

`detect_headings_from_text` caps numbering-derived levels at **4**
(`level = min(dots + 1, 4)`, text_utils.py 78), and
`_build_outline_structure` copies levels verbatim, so outline entries can
carry level 4; the provable cap is 4, not 3. -/

/-- `1 ≤ level ≤ 4`. -/
def levelBounded (l : Int) : Bool := 1 ≤ l && l ≤ 4

mutual

/-- All levels in a subtree are within 1..4. -/
def nodeLB : SectionNode → Bool
  | .mk _ l _ subs => levelBounded l && listLB subs

/-- All levels in a forest are within 1..4. -/
def listLB : List SectionNode → Bool
  | [] => true
  | n :: ns => nodeLB n && listLB ns

end

lemma nodeLB_mk (t : String) (l p : Int) (subs : List SectionNode) :
    nodeLB (.mk t l p subs) = (levelBounded l && listLB subs) := by
  simp [nodeLB]

lemma listLB_nil : listLB [] = true := by simp [listLB]

lemma listLB_cons (n : SectionNode) (ns : List SectionNode) :
    listLB (n :: ns) = (nodeLB n && listLB ns) := by
  simp [listLB]

lemma listLB_append (xs ys : List SectionNode) :
    listLB (xs ++ ys) = (listLB xs && listLB ys) := by
  induction xs with
  | nil => simp [listLB_nil]
  | cons n ns ih => simp [listLB_cons, ih, Bool.and_assoc]

def h2LB : Option OpenH2 → Bool
  | none => true
  | some o => levelBounded o.level && listLB o.subs

def h1LB : Option OpenH1 → Bool
  | none => true
  | some o => levelBounded o.level && listLB o.closedSubs && h2LB o.h2

def stateLB (st : BuildState) : Bool :=
  listLB st.pre && h1LB st.h1 && listLB st.post

lemma nodeLB_closeH2 (o : OpenH2) :
    nodeLB (closeH2 o) = (levelBounded o.level && listLB o.subs) := by
  simp [closeH2, nodeLB_mk]

lemma listLB_stateRoots (st : BuildState) (hst : stateLB st = true) :
    listLB (stateRoots st) = true := by
  rcases st with ⟨pre, oh1, post⟩
  rcases oh1 with _ | ⟨t1, l1, p1, cs, oh2⟩
  · simp_all [stateRoots, stateLB, listLB_append, listLB_nil, h1LB]
  · rcases oh2 with _ | ⟨t2, l2, p2, ss⟩ <;>
      simp_all [stateRoots, stateLB, listLB_append, listLB_nil, listLB_cons, h1LB, h2LB,
        closeH1, closeH2, nodeLB_mk]

lemma stateLB_buildStep (st : BuildState) (h : Heading) (hst : stateLB st = true)
    (hh : levelBounded h.level = true) : stateLB (buildStep st h) = true := by
  have hroots := listLB_stateRoots st hst
  rcases st with ⟨pre, oh1, post⟩
  rcases oh1 with _ | ⟨t1, l1, p1, cs, oh2⟩
  · unfold buildStep addRoot
    dsimp only
    repeat' split
    all_goals
      simp_all [stateLB, h1LB, h2LB, listLB_append, listLB_nil, listLB_cons,
        nodeLB_mk, leaf, levelBounded]
    all_goals omega
  · rcases oh2 with _ | ⟨t2, l2, p2, ss⟩ <;>
    · unfold buildStep addRoot
      dsimp only
      repeat' split
      all_goals
        simp_all [stateLB, h1LB, h2LB, listLB_append, listLB_nil, listLB_cons,
          nodeLB_mk, nodeLB_closeH2, closeH2, leaf, levelBounded]
      all_goals try omega

lemma stateLB_foldl (hs : List Heading) (st : BuildState)
    (hall : ∀ h ∈ hs, levelBounded h.level = true) (hst : stateLB st = true) :
    stateLB (hs.foldl buildStep st) = true := by
  induction hs generalizing st with
  | nil => simpa using hst
  | cons h t ih =>
    rw [List.foldl_cons]
    exact ih _ (fun x hx => hall x (List.mem_cons_of_mem _ hx))
      (stateLB_buildStep _ _ hst (hall h (List.mem_cons_self _ _)))

lemma detect_level_bounds (b : TextBlock) (h : Heading)
    (hd : detectHeadingOfBlock b = some h) : levelBounded h.level = true := by
  unfold detectHeadingOfBlock at hd
  dsimp only at hd
  split at hd
  · simp at hd
  · split at hd
    · obtain rfl : _ = h := Option.some.inj hd
      simp only [levelBounded, Bool.and_eq_true, decide_eq_true_eq]
      omega
    · split at hd
      · split at hd
        · obtain rfl : _ = h := Option.some.inj hd
          simp [levelBounded]
        · simp at hd
      · split at hd
        · obtain rfl : _ = h := Option.some.inj hd
          simp [levelBounded]
        · simp at hd

/-- C3 (amended): every entry of the outline produced by
`_build_outline_structure` from the headings of `detect_headings_from_text`
has a level between 1 and 4 — the detector caps numbering depth at level 4
(not 3), and the builder preserves levels verbatim. -/
theorem outline_levels_capped_at_four (blocks : List TextBlock) :
    listLB (buildOutlineStructure (detectHeadingsFromText blocks)) = true := by
  unfold buildOutlineStructure
  split
  · simp [listLB_nil]
  · dsimp only
    refine listLB_stateRoots _ (stateLB_foldl _ _ ?_ (by simp [stateLB, h1LB, listLB_nil]))
    intro h hs
    have hmem : h ∈ detectHeadingsFromText blocks :=
      ((List.perm_insertionSort headingLE _).mem_iff).mp hs
    obtain ⟨b, _, hb⟩ := List.mem_filterMap.mp hmem
    exact detect_level_bounds b h hb

/-- C3 counterexample: the block "1.1.1.1 Deep Section" (numbering depth 4)
yields an outline whose single entry has level 4, which is not one of the
claimed H1/H2/H3 levels. -/
theorem outline_level_four_counterexample :
    (buildOutlineStructure (detectHeadingsFromText
        [⟨"1.1.1.1 Deep Section", 1, (0, 0, 100, 20), 12, "Arial", 0, 14⟩])).map
      SectionNode.level = [4] ∧
      ¬((4:ℤ) = 1 ∨ (4:ℤ) = 2 ∨ (4:ℤ) = 3) := by
  constructor
  · simp [detectHeadingsFromText, detectHeadingOfBlock, pyStrip, strLen,
      matchNumberedHeading, matchNumberedGo, matchNumberedWs, isWordChar, countDots,
      pyIsUpper, strEndsWithChar, pySplitWs, splitEachGo, buildOutlineStructure,
      List.insertionSort, List.orderedInsert, stateRoots, buildStep, addRoot, leaf,
      closeH1, closeH2, SectionNode.level]
  · omega

/-! ## Ancestor-level strictness and orphan routing (claim C6) -/

/-- Are all levels of a forest strictly above `l`? -/
def childrenAbove (l : Int) : List SectionNode → Bool
  | [] => true
  | c :: cs => decide (l < c.level) && childrenAbove l cs

mutual

/-- Every edge of the subtree goes from a node to a strictly deeper level;
its ancestors therefore all have strictly smaller level numbers. -/
def nodeAncStrict : SectionNode → Bool
  | .mk _ l _ subs => childrenAbove l subs && listAncStrict subs

/-- `nodeAncStrict` on every tree of a forest. -/
def listAncStrict : List SectionNode → Bool
  | [] => true
  | n :: ns => nodeAncStrict n && listAncStrict ns

end

lemma nodeAncStrict_mk (t : String) (l p : Int) (subs : List SectionNode) :
    nodeAncStrict (.mk t l p subs) = (childrenAbove l subs && listAncStrict subs) := by
  simp [nodeAncStrict]

lemma listAncStrict_nil : listAncStrict [] = true := by simp [listAncStrict]

lemma listAncStrict_cons (n : SectionNode) (ns : List SectionNode) :
    listAncStrict (n :: ns) = (nodeAncStrict n && listAncStrict ns) := by
  simp [listAncStrict]

lemma listAncStrict_append (xs ys : List SectionNode) :
    listAncStrict (xs ++ ys) = (listAncStrict xs && listAncStrict ys) := by
  induction xs with
  | nil => simp [listAncStrict_nil]
  | cons n ns ih => simp [listAncStrict_cons, ih, Bool.and_assoc]

lemma childrenAbove_append (l : Int) (xs ys : List SectionNode) :
    childrenAbove l (xs ++ ys) = (childrenAbove l xs && childrenAbove l ys) := by
  induction xs with
  | nil => simp [childrenAbove]
  | cons n ns ih => simp [childrenAbove, ih, Bool.and_assoc]

/-- The C6 invariant on an open `current_h2`: it has level 2 and its
accumulated children sit strictly below it. -/
def h2Strict : Option OpenH2 → Bool
  | none => true
  | some o => decide (o.level = 2) && childrenAbove o.level o.subs && listAncStrict o.subs

/-- The C6 invariant on an open `current_h1`. -/
def h1Strict : Option OpenH1 → Bool
  | none => true
  | some o => decide (o.level = 1) && childrenAbove o.level o.closedSubs &&
      listAncStrict o.closedSubs && h2Strict o.h2

def stateStrict (st : BuildState) : Bool :=
  listAncStrict st.pre && h1Strict st.h1 && listAncStrict st.post

lemma nodeAncStrict_closeH2 (o : OpenH2) (hs : h2Strict (some o) = true) :
    nodeAncStrict (closeH2 o) = true := by
  simp only [h2Strict, Bool.and_eq_true, decide_eq_true_eq] at hs
  simp [closeH2, nodeAncStrict_mk, hs.1.2, hs.2]

lemma listAncStrict_stateRoots (st : BuildState) (hst : stateStrict st = true) :
    listAncStrict (stateRoots st) = true := by
  rcases st with ⟨pre, oh1, post⟩
  rcases oh1 with _ | ⟨t1, l1, p1, cs, oh2⟩
  · simp_all [stateRoots, stateStrict, listAncStrict_append, listAncStrict_nil, h1Strict]
  · rcases oh2 with _ | ⟨t2, l2, p2, ss⟩ <;>
      simp only [stateStrict, h1Strict, h2Strict, Bool.and_eq_true, decide_eq_true_eq] at hst
    · obtain ⟨⟨hpre, ⟨⟨hl1, hca⟩, hcs⟩, -⟩, hpost⟩ := hst
      subst hl1
      simp [stateRoots, listAncStrict_append, listAncStrict_nil, listAncStrict_cons,
        closeH1, closeH2, nodeAncStrict_mk, childrenAbove_append, childrenAbove,
        hpre, hpost, hca, hcs]
    · obtain ⟨⟨hpre, ⟨⟨hl1, hca⟩, hcs⟩, ⟨⟨hl2, hca2⟩, hss⟩⟩, hpost⟩ := hst
      subst hl1; subst hl2
      simp [stateRoots, listAncStrict_append, listAncStrict_nil, listAncStrict_cons,
        closeH1, closeH2, nodeAncStrict_mk, childrenAbove_append, childrenAbove,
        SectionNode.level, hpre, hpost, hca, hcs, hca2, hss]

lemma stateStrict_buildStep (st : BuildState) (h : Heading) (hst : stateStrict st = true) :
    stateStrict (buildStep st h) = true := by
  have hroots := listAncStrict_stateRoots st hst
  rcases st with ⟨pre, oh1, post⟩
  rcases oh1 with _ | ⟨t1, l1, p1, cs, oh2⟩
  · unfold buildStep addRoot
    dsimp only
    repeat' split
    all_goals
      simp_all [stateStrict, h1Strict, h2Strict, listAncStrict_append, listAncStrict_nil,
        listAncStrict_cons, nodeAncStrict_mk, childrenAbove_append, childrenAbove, leaf,
        SectionNode.level]
    all_goals try omega
  · rcases oh2 with _ | ⟨t2, l2, p2, ss⟩ <;>
      simp only [stateStrict, h1Strict, h2Strict, Bool.and_eq_true, decide_eq_true_eq] at hst
    · obtain ⟨⟨hpre, ⟨⟨hl1, hca⟩, hcs⟩, -⟩, hpost⟩ := hst
      subst hl1
      unfold buildStep addRoot
      dsimp only
      repeat' split
      all_goals
        simp_all [stateStrict, h1Strict, h2Strict, listAncStrict_append, listAncStrict_nil,
          listAncStrict_cons, nodeAncStrict_mk, nodeAncStrict_closeH2, closeH2,
          childrenAbove_append, childrenAbove, leaf, SectionNode.level]
      all_goals try omega
    · obtain ⟨⟨hpre, ⟨⟨hl1, hca⟩, hcs⟩, ⟨⟨hl2, hca2⟩, hss⟩⟩, hpost⟩ := hst
      subst hl1; subst hl2
      unfold buildStep addRoot
      dsimp only
      repeat' split
      all_goals
        simp_all [stateStrict, h1Strict, h2Strict, listAncStrict_append, listAncStrict_nil,
          listAncStrict_cons, nodeAncStrict_mk, nodeAncStrict_closeH2, closeH2,
          childrenAbove_append, childrenAbove, leaf, SectionNode.level]
      all_goals try omega

lemma stateStrict_foldl (hs : List Heading) (st : BuildState) (hst : stateStrict st = true) :
    stateStrict (hs.foldl buildStep st) = true := by
  induction hs generalizing st with
  | nil => simpa using hst
  | cons h t ih => exact List.foldl_cons _ _ ▸ ih _ (stateStrict_buildStep _ _ hst)

/-- C6 (amended): the builder routes an orphaned level-3 heading (one
arriving while a level-1 node is open but no level-2 node is open) to the
**root list**, not under the open level-1 node; only level-≥4 orphans
attach to the nearest open ancestor.  Every node's ancestors do have
strictly smaller level numbers. -/
theorem orphan_h3_becomes_root_and_ancestors_strict :
    (∀ (st : BuildState) (o : OpenH1) (h : Heading), st.h1 = some o → o.h2 = none →
        h.level = 3 → buildStep st h = { st with post := st.post ++ [leaf h] }) ∧
      ∀ headings : List Heading,
        listAncStrict (buildOutlineStructure headings) = true := by
  constructor
  · intro st o h h1 h2 hl
    simp [buildStep, addRoot, h1, h2, hl]
  · intro headings
    unfold buildOutlineStructure
    split
    · simp [listAncStrict_nil]
    · exact listAncStrict_stateRoots _ (stateStrict_foldl _ _ (by
        simp [stateStrict, h1Strict, listAncStrict_nil]))

/-- Witness for the amended C6 at a concrete state: a level-3 heading with
an open level-1 "A" and no open level-2 lands in the root list, and a
two-heading outline is ancestor-strict. -/
theorem orphan_h3_becomes_root_witness :
    buildStep ⟨[], some ⟨"A", 1, 1, [], none⟩, []⟩ ⟨"B", 3, 1, (0, 10, 0, 0), 12, 7/10⟩
        = ⟨[], some ⟨"A", 1, 1, [], none⟩, [leaf ⟨"B", 3, 1, (0, 10, 0, 0), 12, 7/10⟩]⟩ ∧
      listAncStrict (buildOutlineStructure
        [⟨"A", 1, 1, (0, 0, 0, 0), 12, 7/10⟩, ⟨"B", 3, 1, (0, 10, 0, 0), 12, 7/10⟩]) = true :=
  ⟨orphan_h3_becomes_root_and_ancestors_strict.1 _ _ _ rfl rfl rfl,
    orphan_h3_becomes_root_and_ancestors_strict.2 _⟩

/-- C6 counterexample: headings [("A", level 1), ("B", level 3)] on the same
page.  The claim requires "B" to become a descendant of the open "A"; the
builder instead emits two roots — "A" keeps no subsections and "B" is a
top-level sibling. -/
theorem orphan_h3_counterexample :
    buildOutlineStructure
        [⟨"A", 1, 1, (0, 0, 0, 0), 12, 7/10⟩, ⟨"B", 3, 1, (0, 10, 0, 0), 12, 7/10⟩]
      = [.mk "A" 1 1 [], .mk "B" 3 1 []] := by
  simp [buildOutlineStructure, List.insertionSort, List.orderedInsert, headingLE,
    stateRoots, buildStep, addRoot, leaf, closeH1, closeH2]

/-! ## `extract_outline` (claim C4)

`OutlineExtractor.extract_outline` wraps everything in `try/except`; the
call to `extract_document_content` performs the file access
(pdf_utils.py 22-40: missing, unreadable or unsupported files yield an
empty `text_blocks` list rather than raising).  The embedding takes the
outcome of that call as an `Except` value: `.error` is a raised exception
(caught at outline_extractor.py 46-48), `.ok` the returned dictionary. -/

/-- The dictionary returned by `extract_document_content` (fields the
extractor reads). -/
structure DocContent where
  text_blocks : List TextBlock
  headings : List Heading

/-- The result dictionary of `extract_outline`. -/
structure OutlineResult where
  title : String
  outline : List SectionNode

/-- Python `min(headings, key=lambda h: h['level'])`: the first heading with
the smallest level. -/
def pickMinLevel (h : Heading) (t : List Heading) : Heading :=
  t.foldl (fun best x => if x.level < best.level then x else best) h

/-- The fallback of `_extract_title_from_headings` (outline_extractor.py
56-60): first text block whose stripped text is non-empty. -/
def firstNonEmptyBlockText : List TextBlock → String
  | [] => ""
  | b :: bs => if pyStrip b.text ≠ "" then pyStrip b.text else firstNonEmptyBlockText bs

/-- `OutlineExtractor._extract_title_from_headings` (outline_extractor.py
50-61). -/
def extractTitleFromHeadings (headings : List Heading) (text_blocks : List TextBlock) :
    String :=
  match headings with
  | h :: t => (pickMinLevel h t).text
  | [] => firstNonEmptyBlockText text_blocks

/-- `OutlineExtractor.extract_outline` (outline_extractor.py 23-48) as a
function of the extraction call's outcome. -/
def extractOutline (r : Except String DocContent) : OutlineResult :=
  match r with
  | .error _ => ⟨"", []⟩
  | .ok dc =>
    if dc.text_blocks = [] then ⟨"", []⟩
    else ⟨extractTitleFromHeadings dc.headings dc.text_blocks,
          buildOutlineStructure dc.headings⟩

/-- C4: `extract_outline` is total over every outcome of the extraction
call — it always returns a record with a string `title` and a list
`outline` (never raises: a raised exception is caught and mapped to the
empty result), and on degenerate inputs (an exception, or an empty
text-block list as produced for missing/unreadable/unsupported/empty
files) the result is exactly `{"title": "", "outline": []}`. -/
theorem extract_outline_total_never_raises :
    (∀ r : Except String DocContent, ∃ (t : String) (o : List SectionNode),
        extractOutline r = ⟨t, o⟩) ∧
      (∀ e, extractOutline (.error e) = ⟨"", []⟩) ∧
      (∀ dc, dc.text_blocks = [] → extractOutline (.ok dc) = ⟨"", []⟩) := by
  refine ⟨fun r => ⟨_, _, rfl⟩, fun e => rfl, fun dc h => ?_⟩
  simp [extractOutline, h]

/-- Witness for C4 on the dictionary an unsupported or unreadable file
produces (empty block list). -/
theorem extract_outline_total_never_raises_witness :
    extractOutline (.ok ⟨[], []⟩) = ⟨"", []⟩ :=
  extract_outline_total_never_raises.2.2 ⟨[], []⟩ rfl

/-! ## `text_processor.py`: rule-based heading classification (claim C7) -/

/-- `re.search(r'^\d+\)\s', text)`: numbered list with parenthesis. -/
def matchNumParen (cs : List Char) : Bool :=
  if (cs.takeWhile Char.isDigit).isEmpty then false
  else
    match cs.dropWhile Char.isDigit with
    | ')' :: c :: _ => c.isWhitespace
    | _ => false

/-- The exclusion patterns of `_is_heading_rule_based` (text_processor.py
252-265): bullets, parenthesised numbering, leading lowercase, trailing
period or `,;:`. -/
def ruleExcluded (text : String) : Bool :=
  let cs := text.toList
  (match cs with
   | '-' :: c :: _ => c.isWhitespace
   | '*' :: c :: _ => c.isWhitespace
   | '•' :: c :: _ => c.isWhitespace
   | _ => false) ||
  matchNumParen cs ||
  (match cs with
   | c :: _ => c.isLower
   | [] => false) ||
  strEndsWithChar text '.' ||
  (match cs.getLast? with
   | some c => c = ',' || c = ';' || c = ':'
   | none => false)

/-- `re.match(r'^\d+\.\s*[A-Z][^.]*$', text, re.IGNORECASE)` — with
`IGNORECASE`, `[A-Z]` accepts any letter. -/
def strongNumDot (cs : List Char) : Bool :=
  if (cs.takeWhile Char.isDigit).isEmpty then false
  else
    match cs.dropWhile Char.isDigit with
    | '.' :: rest =>
      (match rest.dropWhile Char.isWhitespace with
       | c :: tail => c.isAlpha && tail.all (fun x => x ≠ '.')
       | [] => false)
    | _ => false

/-- `re.match(r'^\d+\.\d+\s*[A-Z][^.]*$', text, re.IGNORECASE)`. -/
def strongNumNum (cs : List Char) : Bool :=
  if (cs.takeWhile Char.isDigit).isEmpty then false
  else
    match cs.dropWhile Char.isDigit with
    | '.' :: rest =>
      if (rest.takeWhile Char.isDigit).isEmpty then false
      else
        (match (rest.dropWhile Char.isDigit).dropWhile Char.isWhitespace with
         | c :: tail => c.isAlpha && tail.all (fun x => x ≠ '.')
         | [] => false)
    | _ => false

/-- Does `cs` start with the word `w` followed by whitespace and a digit
(`^(Chapter|Section|Part)\s+\d+` for one alternative, case already
lowered)? -/
def startsWordWsDigit (cs : List Char) (w : List Char) : Bool :=
  w.isPrefixOf cs &&
    (let rest := cs.drop w.length
     ¬(rest.takeWhile Char.isWhitespace).isEmpty &&
       (match rest.dropWhile Char.isWhitespace with
        | c :: _ => c.isDigit
        | [] => false))

/-- `re.match(r'^(Chapter|Section|Part)\s+\d+', text, re.IGNORECASE)`. -/
def strongChapter (text : String) : Bool :=
  let cs := (strToLower text).toList
  startsWordWsDigit cs "chapter".toList || startsWordWsDigit cs "section".toList ||
    startsWordWsDigit cs "part".toList

/-- The canonical section names of text_processor.py 272, lowered. -/
def canonicalHeadings : List String :=
  ["introduction", "conclusion", "summary", "abstract", "methodology", "results", "discussion"]

/-- `re.match(r'^(Introduction|...|Discussion)$', text, re.IGNORECASE)`. -/
def strongCanonical (text : String) : Bool :=
  canonicalHeadings.any (fun w => strEqB (strToLower text) w)

/-- One `[A-Z][a-z]+` word; returns the remaining characters. -/
def parseTitleWord : List Char → Option (List Char)
  | c :: rest =>
    if c.isUpper then
      if (rest.takeWhile Char.isLower).isEmpty then none
      else some (rest.dropWhile Char.isLower)
    else none
  | [] => none

/-- Up to `k` further `\s+[A-Z][a-z]+` groups, then end of string. -/
def mediumTitleCaseLoop : List Char → ℕ → Bool
  | [], _ => true
  | _ :: _, 0 => false
  | cs, k + 1 =>
    if (cs.takeWhile Char.isWhitespace).isEmpty then false
    else
      match parseTitleWord (cs.dropWhile Char.isWhitespace) with
      | some rest => mediumTitleCaseLoop rest k
      | none => false

/-- `re.match(r'^[A-Z][a-z]+(?:\s+[A-Z][a-z]+){0,4}$', text)`: Title Case of
at most 5 words. -/
def mediumTitleCase (text : String) : Bool :=
  match parseTitleWord text.toList with
  | some rest => mediumTitleCaseLoop rest 4
  | none => false

/-- `re.match(r'^[A-Z\s]{3,20}$', text)`. -/
def mediumAllCaps (text : String) : Bool :=
  let cs := text.toList
  3 ≤ cs.length && cs.length ≤ 20 && cs.all (fun c => c.isUpper || c.isWhitespace)

/-- Common heading words of text_processor.py 294. -/
def headingWords : List String :=
  ["introduction", "conclusion", "summary", "abstract", "overview", "background"]

/-- `TextProcessor._is_heading_rule_based` (text_processor.py 243-299):
`(isHeading, confidence)`. -/
def isHeadingRuleBased (text0 : String) : Bool × ℚ :=
  if text0 = "" ∨ strLen (pyStrip text0) < 3 then (false, 0)
  else
    let text := pyStrip text0
    if ruleExcluded text then (false, 0)
    else
      let conf1 : ℚ := if strongNumDot text.toList then max 0 (95/100) else 0
      let conf2 := if strongNumNum text.toList then max conf1 (9/10) else conf1
      let conf3 := if strongChapter text then max conf2 (95/100) else conf2
      let conf4 := if strongCanonical text then max conf3 (9/10) else conf3
      let conf5 := if mediumTitleCase text then max conf4 (7/10) else conf4
      let conf6 := if mediumAllCaps text then max conf5 (6/10) else conf5
      let conf7 := if 5 ≤ strLen text ∧ strLen text ≤ 60 ∧
          ¬(strEndsWithChar text '.' = true) then conf6 + 1/10 else conf6
      let conf8 := if headingWords.any (fun w => strContains (strToLower text) w)
        then conf7 + 2/10 else conf7
      (65/100 ≤ conf8, min conf8 1)

/-- The exclusion patterns of `is_heading_ml` (text_processor.py 214-220). -/
def mlExcluded (text : String) : Bool :=
  (match text.toList with
   | '-' :: c :: _ => c.isWhitespace
   | '*' :: c :: _ => c.isWhitespace
   | '•' :: c :: _ => c.isWhitespace
   | _ => false) ||
  strEndsWithChar text '.' ||
  (match text.toList with
   | c :: _ => c.isLower
   | [] => false)

/-- `TextProcessor.is_heading_ml` (text_processor.py 206-241) in the
rule-based mode (no transformer classifier loaded): exclusions, then
fallback to `_is_heading_rule_based`. -/
def isHeadingML (text0 : String) : Bool × ℚ :=
  if text0 = "" then (false, 0)
  else
    let text := pyStrip text0
    if mlExcluded text then (false, 0)
    else isHeadingRuleBased text

/-- `re.match(r'^\d+\.\s*[A-Z]', text)` (case-sensitive). -/
def matchLvl1Num (text : String) : Bool :=
  let cs := text.toList
  if (cs.takeWhile Char.isDigit).isEmpty then false
  else
    match cs.dropWhile Char.isDigit with
    | '.' :: rest =>
      (match rest.dropWhile Char.isWhitespace with
       | c :: _ => c.isUpper
       | [] => false)
    | _ => false

/-- `re.match(r'^\d+\.\d+\s*[A-Z]', text)`. -/
def matchLvl2Num (text : String) : Bool :=
  let cs := text.toList
  if (cs.takeWhile Char.isDigit).isEmpty then false
  else
    match cs.dropWhile Char.isDigit with
    | '.' :: rest =>
      if (rest.takeWhile Char.isDigit).isEmpty then false
      else
        (match (rest.dropWhile Char.isDigit).dropWhile Char.isWhitespace with
         | c :: _ => c.isUpper
         | [] => false)
    | _ => false

/-- `re.match(r'^\d+\.\d+\.\d+', text)`. -/
def matchLvl3Num (text : String) : Bool :=
  let cs := text.toList
  if (cs.takeWhile Char.isDigit).isEmpty then false
  else
    match cs.dropWhile Char.isDigit with
    | '.' :: rest =>
      if (rest.takeWhile Char.isDigit).isEmpty then false
      else
        match (rest.dropWhile Char.isDigit) with
        | '.' :: rest2 => !(rest2.takeWhile Char.isDigit).isEmpty
        | _ => false
    | _ => false

/-- `MLOutlineExtractor._determine_heading_level_ml` (ml_outline_extractor.py
76-111), for a block that has a `font_size` attribute (every `TextBlock`
does): font tier first, then the pattern/keyword chain, capped at 3. -/
def determineHeadingLevelML (text : String) (confidence : ℚ) (font_size : ℚ) : Int :=
  let fontLevel : Int := if font_size > 16 then 1 else if font_size > 14 then 2 else 3
  let tl := strToLower text
  let level : Int :=
    if matchLvl1Num text then 1
    else if ["chapter", "part", "section"].any (fun w => strContains tl w) then 1
    else if matchLvl2Num text then 2
    else if pyIsUpper text ∧ strLen text < 50 then 2
    else if matchLvl3Num text then 3
    else if confidence < 7/10 then 3
    else fontLevel
  min level 3

/-- C7: on the heading-candidate text "1. Introduction" the classification
pipeline (rule-based classifier, also reached through `is_heading_ml` when
no model is loaded) returns `isHeading = true` with confidence 1 ≥ 0.9, and
`_determine_heading_level_ml` assigns level 1 (at the default 12pt font the
font tier would say 3, but the `^\d+\.\s*[A-Z]` pattern forces 1). -/
theorem heading_one_introduction_scenario :
    isHeadingRuleBased "1. Introduction" = (true, 1) ∧
      isHeadingML "1. Introduction" = (true, 1) ∧
      (9/10 : ℚ) ≤ 1 ∧
      determineHeadingLevelML "1. Introduction" 1 12 = 1 := by
  have h0 : ¬("1. Introduction" = "" ∨ strLen (pyStrip "1. Introduction") < 3) := by decide
  have h1 : ¬(ruleExcluded (pyStrip "1. Introduction") = true) := by decide
  have h2 : strongNumDot (pyStrip "1. Introduction").toList = true := by decide
  have h3 : ¬(strongNumNum (pyStrip "1. Introduction").toList = true) := by decide
  have h4 : ¬(strongChapter (pyStrip "1. Introduction") = true) := by decide
  have h5 : ¬(strongCanonical (pyStrip "1. Introduction") = true) := by decide
  have h6 : ¬(mediumTitleCase (pyStrip "1. Introduction") = true) := by decide
  have h7 : ¬(mediumAllCaps (pyStrip "1. Introduction") = true) := by decide
  have h8 : 5 ≤ strLen (pyStrip "1. Introduction") ∧ strLen (pyStrip "1. Introduction") ≤ 60 ∧
      ¬(strEndsWithChar (pyStrip "1. Introduction") '.' = true) := by decide
  have h9 : headingWords.any
      (fun w => strContains (strToLower (pyStrip "1. Introduction")) w) = true := by decide
  have hrb : isHeadingRuleBased "1. Introduction" = (true, 1) := by
    simp only [isHeadingRuleBased, h0, h2, h9, h1, h3, h4, h5, h6, h7, h8,
      ite_true, ite_false, if_true, if_false, not_false_eq_true, and_self,
      if_neg, Prod.mk.injEq]
    norm_num
  have hpy : pyStrip "1. Introduction" = "1. Introduction" := by decide
  have hml : ¬(mlExcluded (pyStrip "1. Introduction") = true) := by decide
  refine ⟨hrb, ?_, by norm_num, ?_⟩
  · simp only [isHeadingML, hml, ite_false, if_false,
      show ¬("1. Introduction" = "") by decide, hpy]
    simpa using hrb
  · have m1 : matchLvl1Num "1. Introduction" = true := by decide
    simp only [determineHeadingLevelML, m1, ite_true, if_true]
    norm_num

/-! ## `persona_processor.py`: role and domain extraction (claim C8) -/

/-- The keys of `self.role_domains` (persona_processor.py 17-28), in
insertion order — `_extract_role` iterates them for direct substring
matching. -/
def roleDomainKeys : List String :=
  ["researcher", "student", "analyst", "journalist", "entrepreneur", "developer",
   "manager", "travel planner", "tourist", "traveler"]

/-- The fallback `role_patterns` of `_extract_role` (persona_processor.py
70-81); each regex is an unanchored alternation of literals, i.e. an
any-substring test. -/
def rolePatterns : List (String × List String) :=
  [("researcher", ["phd", "research", "scientist", "academic"]),
   ("student", ["student", "undergraduate", "graduate", "learner"]),
   ("analyst", ["analyst", "investment", "financial", "business"]),
   ("journalist", ["journalist", "reporter", "writer", "media"]),
   ("entrepreneur", ["entrepreneur", "founder", "startup", "business owner"]),
   ("developer", ["developer", "programmer", "engineer", "coder"]),
   ("manager", ["manager", "director", "executive", "lead"]),
   ("travel planner", ["travel planner", "trip planner", "travel agent", "travel advisor"]),
   ("tourist", ["tourist", "vacationer", "visitor"]),
   ("traveler", ["traveler", "traveller", "backpacker", "explorer"])]

/-- `PersonaProcessor._extract_role` (persona_processor.py 58-87). -/
def extractRole (persona : String) : String :=
  if persona = "" then "general"
  else
    let persona_lower := strToLower persona
    match roleDomainKeys.find? (fun role => strContains persona_lower role) with
    | some role => role
    | none =>
      match rolePatterns.find? (fun rp => rp.2.any (fun pat => strContains persona_lower pat)) with
      | some rp => rp.1
      | none => "general"

/-- The `domains` table of `_extract_domain` (persona_processor.py 94-104),
in insertion order. -/
def domainsTable : List (String × List String) :=
  [("technology", ["tech", "technology", "software", "computer", "ai", "ml", "data science"]),
   ("biology", ["biology", "bio", "life science", "medical", "health"]),
   ("chemistry", ["chemistry", "chemical", "organic", "inorganic"]),
   ("finance", ["finance", "financial", "investment", "banking", "economics"]),
   ("business", ["business", "management", "marketing", "sales"]),
   ("education", ["education", "teaching", "academic", "school"]),
   ("engineering", ["engineering", "mechanical", "electrical", "civil"]),
   ("law", ["law", "legal", "attorney", "lawyer"]),
   ("travel", ["travel", "tourism", "hospitality", "destination", "vacation", "trip", "journey"])]

/-- `PersonaProcessor._extract_domain` (persona_processor.py 89-110). -/
def extractDomain (persona : String) : String :=
  let persona_lower := strToLower persona
  match domainsTable.find? (fun dk => dk.2.any (fun k => strContains persona_lower k)) with
  | some dk => dk.1
  | none => "general"

/-- C8: the Persona Profile Builder maps "PhD Researcher in Computational
Biology" to role "researcher" and domain "biology", and "Investment
Analyst" to role "analyst" and domain "finance". -/
theorem persona_role_domain_scenarios :
    extractRole "PhD Researcher in Computational Biology" = "researcher" ∧
      extractDomain "PhD Researcher in Computational Biology" = "biology" ∧
      extractRole "Investment Analyst" = "analyst" ∧
      extractDomain "Investment Analyst" = "finance" := by
  refine ⟨?_, ?_, ?_, ?_⟩ <;> decide

end Round1B
